import Mathlib

/-!
Verification development for the packetlens sidecar (`src/sidecar/proxy_service.py`).

The file shallowly embeds the pure capture/record pipeline (truncation,
content-encoding undo, UTF-8 safe decoding, binary heuristics, placeholder
rendering) and the serialized proxy lifecycle state machine of `ProxyService`
(start with candidate-port search, stop, pause, resume, the engine thread's
own exit path, and the derived status payload).

Modelling conventions:
* raw bodies are `List Nat` (byte values); header collections are
  `Option (List (String × String))` (an ordered multi-map; `none` models
  Python `None`);
* the stdlib decompressors (`gzip.decompress`, `zlib.decompress`,
  `brotli.decompress`) are external collaborators, so they are parameters
  (`Decompressors`); `Option` result `none` models a raised exception and
  `brAvailable = false` models a failed `import brotli`;
* Python's `bytes.decode("utf-8")` is embedded as an executable UTF-8
  decoder (`utf8DecodeReplace`) that reports whether any ill-formed
  sequence was replaced (strict decoding succeeds iff the flag is false);
* the lifecycle state machine is the serialized semantics of `ProxyService`
  under its single mutex: each public method is a state transformer, the
  engine thread's exit path is a separate transition, and the outcome of
  spawning the engine on a candidate port is given by an oracle
  `Nat → StartOutcome` (the environment: port occupied, bind failure with a
  captured exception message, unreachable timeout, or success).
-/

/-! ### Body codec (proxy_service.py lines 16-116) -/

/-- Python `MAX_BODY_CAPTURE = 100 * 1024` (line 16). -/
def MAX_BODY_CAPTURE : Nat := 100 * 1024

/-- Python `TEXTUAL_CONTENT_HINTS` (lines 17-25). -/
def TEXTUAL_CONTENT_HINTS : List String :=
  ["text/", "application/json", "application/xml", "application/javascript",
   "application/x-www-form-urlencoded", "application/graphql",
   "application/x-ndjson"]

/-- Python `BINARY_CONTENT_HINTS` (lines 26-37). -/
def BINARY_CONTENT_HINTS : List String :=
  ["application/octet-stream", "application/x-protobuf", "application/protobuf",
   "application/grpc", "application/pdf", "application/zip",
   "image/", "audio/", "video/", "font/"]

/-- Python `_truncate_bytes(data, limit=MAX_BODY_CAPTURE)` (lines 40-45):
`None` becomes `b""`, data of length at most `limit` is returned unchanged,
longer data is cut to the first `limit` bytes. -/
def truncate_bytes (data : Option (List Nat)) (limit : Nat := MAX_BODY_CAPTURE) : List Nat :=
  match data with
  | none => []
  | some d => if d.length ≤ limit then d else d.take limit

/-- Does `pat` start the character list `l` (Python string prefix test,
used to embed Python's substring operator `in`). -/
def charsStartWith : List Char → List Char → Bool
  | [], _ => true
  | _ :: _, [] => false
  | p :: ps, c :: cs => p == c && charsStartWith ps cs

/-- Does the character list contain `pat` as a contiguous sublist. -/
def charsContain : List Char → List Char → Bool
  | [], pat => pat.isEmpty
  | c :: rest, pat => charsStartWith pat (c :: rest) || charsContain rest pat

/-- Python `needle in haystack` on strings: substring containment. -/
def strContains (haystack needle : String) : Bool :=
  charsContain haystack.data needle.data

/-- Python `str.lower()`. Header names and content-type values in this code
are ASCII, where `Char.toLower` coincides with Python's `str.lower`. -/
def lowerAscii (s : String) : String := String.mk (s.data.map Char.toLower)

/-- Python `_get_header_value(headers, name)` (lines 59-70): empty string
for `None`/empty collections, else the first value whose name matches
case-insensitively, else the empty string.  The `items(multi=True)` /
`items()` distinction is invisible here: both enumerate the name/value
pairs in order, which is what the `List` holds. -/
def get_header_value (headers : Option (List (String × String))) (name : String) : String :=
  match headers with
  | none => ""
  | some hs =>
    if hs.isEmpty then ""
    else
      match hs.find? (fun kv => lowerAscii kv.1 == lowerAscii name) with
      | some kv => kv.2
      | none => ""

/-- Continuation byte test `0x80 ≤ b ≤ 0xBF` for UTF-8 decoding. -/
def isContByte (b : Nat) : Bool := decide (0x80 ≤ b) && decide (b ≤ 0xBF)

/-- Constrained second-byte test of a multi-byte UTF-8 sequence headed by
`b` (excludes overlong encodings, surrogates and code points above
U+10FFFF, as CPython's strict UTF-8 codec does). -/
def utf8SecondByteOk (b b2 : Nat) : Bool :=
  if b == 0xE0 then decide (0xA0 ≤ b2) && decide (b2 ≤ 0xBF)
  else if b == 0xED then decide (0x80 ≤ b2) && decide (b2 ≤ 0x9F)
  else if b == 0xF0 then decide (0x90 ≤ b2) && decide (b2 ≤ 0xBF)
  else if b == 0xF4 then decide (0x80 ≤ b2) && decide (b2 ≤ 0x8F)
  else isContByte b2

/-- Unicode replacement character U+FFFD. -/
def replChar : Char := '�'

/-- UTF-8 decoding with replacement, as CPython's `errors="replace"` does:
one U+FFFD per maximal subpart of an ill-formed sequence.  The second
component records whether any replacement happened; it is `false` exactly
when the input is well-formed UTF-8, i.e. when strict decoding succeeds.
The first argument is fuel (call with the byte count; every step consumes
at least one byte, so the fuel never runs out on such calls). -/
def utf8DecodeReplace : Nat → List Nat → List Char × Bool
  | 0, _ => ([], false)
  | _ + 1, [] => ([], false)
  | fuel + 1, b :: rest =>
    if b < 0x80 then
      let p := utf8DecodeReplace fuel rest
      (Char.ofNat b :: p.1, p.2)
    else if b < 0xC2 then
      let p := utf8DecodeReplace fuel rest
      (replChar :: p.1, true)
    else if b ≤ 0xDF then
      match rest with
      | [] => ([replChar], true)
      | b2 :: rest2 =>
        if isContByte b2 then
          let p := utf8DecodeReplace fuel rest2
          (Char.ofNat ((b - 0xC0) * 64 + (b2 - 0x80)) :: p.1, p.2)
        else
          let p := utf8DecodeReplace fuel rest
          (replChar :: p.1, true)
    else if b ≤ 0xEF then
      match rest with
      | [] => ([replChar], true)
      | b2 :: rest2 =>
        if utf8SecondByteOk b b2 then
          match rest2 with
          | [] => ([replChar], true)
          | b3 :: rest3 =>
            if isContByte b3 then
              let p := utf8DecodeReplace fuel rest3
              (Char.ofNat ((b - 0xE0) * 4096 + (b2 - 0x80) * 64 + (b3 - 0x80)) :: p.1, p.2)
            else
              let p := utf8DecodeReplace fuel rest2
              (replChar :: p.1, true)
        else
          let p := utf8DecodeReplace fuel rest
          (replChar :: p.1, true)
    else if b ≤ 0xF4 then
      match rest with
      | [] => ([replChar], true)
      | b2 :: rest2 =>
        if utf8SecondByteOk b b2 then
          match rest2 with
          | [] => ([replChar], true)
          | b3 :: rest3 =>
            if isContByte b3 then
              match rest3 with
              | [] => ([replChar], true)
              | b4 :: rest4 =>
                if isContByte b4 then
                  let p := utf8DecodeReplace fuel rest4
                  (Char.ofNat ((b - 0xF0) * 262144 + (b2 - 0x80) * 4096 +
                    (b3 - 0x80) * 64 + (b4 - 0x80)) :: p.1, p.2)
                else
                  let p := utf8DecodeReplace fuel rest3
                  (replChar :: p.1, true)
            else
              let p := utf8DecodeReplace fuel rest2
              (replChar :: p.1, true)
        else
          let p := utf8DecodeReplace fuel rest
          (replChar :: p.1, true)
    else
      let p := utf8DecodeReplace fuel rest
      (replChar :: p.1, true)

/-- Python `_safe_decode(data)` (lines 48-56): empty input decodes to
`("", False)`; otherwise strict UTF-8, and on `UnicodeDecodeError` lossy
decoding with `errors="replace"` together with the issue flag. -/
def safe_decode (data : List Nat) : String × Bool :=
  if data.isEmpty then ("", false)
  else
    let p := utf8DecodeReplace data.length data
    (String.mk p.1, p.2)

/-- Python `ord(c) < 32 and c not in ("\n", "\r", "\t")` (line 77). -/
def isStrippedControl (c : Char) : Bool :=
  decide (c.toNat < 32) && !(c == '\n') && !(c == '\r') && !(c == '\t')

/-- Control characters (excluding tab/newline/carriage-return) in the
sample (line 77). -/
def controlCount (sample : List Char) : Nat :=
  (sample.filter isStrippedControl).length

/-- Replacement characters in the sample, Python `sample.count("�")`
(line 78). -/
def replacementCount (sample : List Char) : Nat :=
  (sample.filter (fun c => c == replChar)).length

/-- Python `_looks_binary_from_text(text)` (lines 73-80).  The ratio test
`(control + replacement) / max(1, len(sample)) > 0.08` is embedded as the
exact rational comparison `(control + replacement) * 25 > 2 * max 1 len`;
with sample length at most 2000 and counts at most the length, the nearest
rational to the quotient is never within one double-precision ulp of the
literal `0.08`, so the float comparison in the source decides exactly the
same way. -/
def looks_binary_from_text (text : String) : Bool :=
  if text == "" then false
  else
    let sample := text.data.take 2000
    decide ((controlCount sample + replacementCount sample) * 25 > 2 * max 1 sample.length)

/-- External decompressors used by `_decode_for_display` (lines 93-107):
`gunzip` is `gzip.decompress`, `inflate` is `zlib.decompress`, `brotli` is
`brotli.decompress`.  A `none` result models a raised exception;
`brAvailable = false` models `import brotli` failing. -/
structure Decompressors where
  gunzip : List Nat → Option (List Nat)
  inflate : List Nat → Option (List Nat)
  brAvailable : Bool
  brotli : List Nat → Option (List Nat)

/-- Python line 87: `_get_header_value(headers, "content-type").lower()`. -/
def contentTypeOf (headers : Option (List (String × String))) : String :=
  lowerAscii (get_header_value headers "content-type")

/-- Python line 88: `_get_header_value(headers, "content-encoding").lower()`. -/
def contentEncodingOf (headers : Option (List (String × String))) : String :=
  lowerAscii (get_header_value headers "content-encoding")

/-- Python line 90: `lowered_ct = content_type.lower()` (lowered again). -/
def loweredCt (headers : Option (List (String × String))) : String :=
  lowerAscii (contentTypeOf headers)

/-- Python line 91: `any(hint in lowered_ct for hint in BINARY_CONTENT_HINTS)`. -/
def declaredBinary (headers : Option (List (String × String))) : Bool :=
  BINARY_CONTENT_HINTS.any (fun hint => strContains (loweredCt headers) hint)

/-- Python line 110: `any(hint in lowered_ct for hint in TEXTUAL_CONTENT_HINTS)`. -/
def declaredTextual (headers : Option (List (String × String))) : Bool :=
  TEXTUAL_CONTENT_HINTS.any (fun hint => strContains (loweredCt headers) hint)

/-- Python lines 93-107: undo the transport content-encoding.  `gzip`
anywhere in the header value selects gzip-inflate, else `deflate` selects
zlib-inflate, else `br` selects best-effort brotli when the decoder is
importable; a missing decoder or any decompression exception leaves the
bytes unchanged (the surrounding `try`/`except` never re-raises). -/
def undoContentEncoding (dec : Decompressors) (encoding : String) (data : List Nat) : List Nat :=
  if strContains encoding "gzip" then (dec.gunzip data).getD data
  else if strContains encoding "deflate" then (dec.inflate data).getD data
  else if strContains encoding "br" then
    if dec.brAvailable then (dec.brotli data).getD data else data
  else data

/-- The `decoded_bytes` value of `_decode_for_display` (lines 93-107). -/
def decodedBytes (dec : Decompressors) (data : List Nat)
    (headers : Option (List (String × String))) : List Nat :=
  undoContentEncoding dec (contentEncodingOf headers) data

/-- The `text` component of line 109. -/
def displayText (dec : Decompressors) (data : List Nat)
    (headers : Option (List (String × String))) : String :=
  (safe_decode (decodedBytes dec data headers)).1

/-- The `had_decode_issue` component of line 109. -/
def hadDecodeIssue (dec : Decompressors) (data : List Nat)
    (headers : Option (List (String × String))) : Bool :=
  (safe_decode (decodedBytes dec data headers)).2

/-- Python lines 113-114: the placeholder
`f"[binary body omitted: {kind}; {len(data)} bytes]"` with
`kind = content_type or "binary/unknown"`. -/
def binary_placeholder (contentType : String) (byteCount : Nat) : String :=
  "[binary body omitted: " ++
    (if contentType == "" then "binary/unknown" else contentType) ++
    "; " ++ toString byteCount ++ " bytes]"

/-- Python `_decode_for_display(data, headers)` (lines 83-116).  Note that
`len(data)` in the placeholder is the length of the argument, which at the
`FlowCollector` call sites (lines 227-228) is the already-truncated body. -/
def decode_for_display (dec : Decompressors) (data : List Nat)
    (headers : Option (List (String × String))) : String :=
  if data.isEmpty then ""
  else if (declaredBinary headers && !declaredTextual headers)
       || (hadDecodeIssue dec data headers && !declaredTextual headers)
       || looks_binary_from_text (displayText dec data headers) then
    binary_placeholder (contentTypeOf headers) data.length
  else displayText dec data headers

/-- The `request_body_truncated` / `response_body_truncated` flag of the
FlowRecord (lines 229-230): `len(body) > MAX_BODY_CAPTURE`, computed on the
original, untruncated body. -/
def bodyTruncatedFlag (body : List Nat) : Bool :=
  decide (body.length > MAX_BODY_CAPTURE)

/-! ### ProxyService lifecycle state machine (lines 237-383) -/

/-- Events that `ProxyService` and the engine thread put on the event
queue: `_status(status, message, port)` payloads (line 367-368) and
`{"type": "error", "message": ...}` payloads. -/
inductive SidecarEvent where
  | status (st : String) (message : String) (port : Option Nat)
  | error (message : String)
deriving DecidableEq

/-- Serialized `ProxyService` state: the `CaptureState` flags, thread
liveness of the (at most one) engine thread, `current_port`,
`_start_in_progress`, `_last_start_error`, and the queue of emitted events
in order. -/
structure ServiceState where
  capture_enabled : Bool
  paused : Bool
  thread_alive : Bool
  current_port : Option Nat
  start_in_progress : Bool
  last_start_error : String
  events : List SidecarEvent
deriving DecidableEq

/-- State after `ProxyService.__init__` (lines 238-247) with a fresh
`CaptureState` (lines 150-154: `capture_enabled` set, `paused` clear). -/
def initialState : ServiceState :=
  { capture_enabled := true, paused := false, thread_alive := false,
    current_port := none, start_in_progress := false,
    last_start_error := "", events := [] }

/-- Python `_running_message(port)` (lines 249-250); `if port` is Python
truthiness, so both `None` and `0` give the bare message. -/
def running_message (port : Option Nat) : String :=
  match port with
  | some p => if p == 0 then "Proxy Running" else "Proxy Running on 127.0.0.1:" ++ toString p
  | none => "Proxy Running"

/-- Python `current_status_payload` (lines 252-264), the derived status. -/
def current_status_payload (s : ServiceState) : SidecarEvent :=
  if s.thread_alive then
    if s.paused then SidecarEvent.status "paused" "Paused" s.current_port
    else if s.capture_enabled then
      SidecarEvent.status "running" (running_message s.current_port) s.current_port
    else SidecarEvent.status "stopped" "Ready" s.current_port
  else SidecarEvent.status "stopped" "Ready" s.current_port

/-- Python `_candidate_ports(requested_port)` (lines 266-269): the
requested port followed by the next twenty. -/
def candidate_ports (requested : Nat) : List Nat :=
  requested :: List.range' (requested + 1) 20

/-- Environment outcome of attempting one candidate port in `start`
(lines 320-331): the fast probe finds the port occupied (`inUse`, line
322-323); the engine thread raises while binding, with the stringified
exception recorded in `_last_start_error` (`failWith`, lines 301-302);
the engine never becomes reachable within the 2.5 s window (`timeout`,
line 327); or the engine binds and the probe succeeds (`ok`). -/
inductive StartOutcome where
  | inUse
  | failWith (err : String)
  | timeout
  | ok
deriving DecidableEq

/-- Python `_shutdown_proxy_locked` (lines 370-383): request engine stop,
join the thread, clear the handle/loop/thread references.  It does not
touch `current_port`, the capture flags or the event queue. -/
def shutdown_proxy_locked (s : ServiceState) : ServiceState :=
  { s with thread_alive := false }

/-- The exhaustion tail of `start` (lines 333-343): clear `current_port`,
emit the failure status naming the requested port, then the error event
with the last captured engine exception (Python `or` falls back to the
generic hint on the empty string). -/
def failFinish (requested : Nat) (s : ServiceState) : ServiceState :=
  { s with
    start_in_progress := false,
    current_port := none,
    events := s.events ++
      [SidecarEvent.status "stopped"
        ("Failed to start proxy near 127.0.0.1:" ++ toString requested) (some requested),
       SidecarEvent.error
        ("Proxy failed to start near 127.0.0.1:" ++ toString requested ++ ". " ++
          (if s.last_start_error == "" then "Port may be busy or blocked." else s.last_start_error))] }

/-- The candidate loop of `start` (lines 319-343), serialized.  `inUse`
skips the candidate (lines 322-323).  A spawned attempt records the
candidate in `current_port` (line 324); on failure the thread is dead (its
`finally`, lines 306-317) or is shut down after the probe window (line
331), with a raised exception captured in `_last_start_error` (line 302);
either way the loop continues with no event emitted.  On success the
thread stays alive and the running status is emitted (lines 327-330);
`_start_in_progress` is cleared after the loop in both branches (line 333). -/
def tryCandidates (oracle : Nat → StartOutcome) (requested : Nat) :
    ServiceState → List Nat → ServiceState
  | s, [] => failFinish requested s
  | s, c :: rest =>
    match oracle c with
    | StartOutcome.inUse => tryCandidates oracle requested s rest
    | StartOutcome.failWith e =>
      tryCandidates oracle requested
        { s with
          current_port := some c, thread_alive := false, last_start_error := e } rest
    | StartOutcome.timeout =>
      tryCandidates oracle requested
        { s with
          current_port := some c, thread_alive := false } rest
    | StartOutcome.ok =>
      { s with
        current_port := some c,
        thread_alive := true,
        start_in_progress := false,
        events := s.events ++
          [SidecarEvent.status "running" (running_message (some c)) (some c)] }

/-- Python `start(port)` (lines 271-343), serialized under the lock.  If
the engine is alive on exactly the requested port, resume in place (lines
274-279); if alive on a different port, shut it down first (line 282).
Then set the capture flags, mark the start in progress, clear the last
error (lines 284-287) and run the candidate loop. -/
def startOp (s : ServiceState) (port : Nat) (oracle : Nat → StartOutcome) : ServiceState :=
  if s.thread_alive = true ∧ s.current_port = some port then
    { s with
      capture_enabled := true,
      paused := false,
      events := s.events ++
        [SidecarEvent.status "running" (running_message (some port)) (some port)] }
  else
    let s1 := if s.thread_alive = true then shutdown_proxy_locked s else s
    let s2 :=
      { s1 with
        capture_enabled := true,
        paused := false,
        start_in_progress := true,
        last_start_error := "" }
    tryCandidates oracle port s2 (candidate_ports port)

/-- Python `stop()` (lines 345-351): clear both flags, shut the engine
down, emit the stopped status with the still-set port, then clear it. -/
def stopOp (s : ServiceState) : ServiceState :=
  { s with
    capture_enabled := false,
    paused := false,
    thread_alive := false,
    events := s.events ++ [SidecarEvent.status "stopped" "Stopped" s.current_port],
    current_port := none }

/-- Python `pause()` (lines 353-358): no-op without an alive engine
thread; else set the paused flag and emit the paused status. -/
def pauseOp (s : ServiceState) : ServiceState :=
  if s.thread_alive then
    { s with
      paused := true,
      events := s.events ++ [SidecarEvent.status "paused" "Paused" s.current_port] }
  else s

/-- Python `resume()` (lines 360-365). -/
def resumeOp (s : ServiceState) : ServiceState :=
  if s.thread_alive then
    { s with
      paused := false,
      events := s.events ++
        [SidecarEvent.status "running" (running_message s.current_port) s.current_port] }
  else s

/-- The engine thread's own exit path (`run_proxy`, lines 297-317),
serialized between public operations (so `_start_in_progress` is false):
a raised engine exception records `_last_start_error` and emits the error
event and a stopped status (lines 301-305); a clean return emits nothing;
either way the `finally` block clears the thread reference (line 317)
without touching `current_port`. -/
def engineExitOp (err : Option String) (s : ServiceState) : ServiceState :=
  if s.thread_alive then
    match err with
    | some e =>
      { s with
        last_start_error := e,
        thread_alive := false,
        events := s.events ++
          [SidecarEvent.error e, SidecarEvent.status "stopped" "Stopped" s.current_port] }
    | none => { s with thread_alive := false }
  else s

/-- One serialized `ProxyService` operation. -/
inductive Op where
  | start (port : Nat) (oracle : Nat → StartOutcome)
  | stop
  | pause
  | resume
  | engineExit (err : Option String)

/-- Is the operation the engine thread's own exit path. -/
def Op.isEngineExit : Op → Bool
  | Op.engineExit _ => true
  | _ => false

/-- Apply one serialized operation. -/
def applyOp (op : Op) (s : ServiceState) : ServiceState :=
  match op with
  | Op.start port oracle => startOp s port oracle
  | Op.stop => stopOp s
  | Op.pause => pauseOp s
  | Op.resume => resumeOp s
  | Op.engineExit err => engineExitOp err s

/-- Run a serialized sequence of operations. -/
def runOps (ops : List Op) (s : ServiceState) : ServiceState :=
  ops.foldl (fun st op => applyOp op st) s

/-- The lifecycle invariant of the spec: no start attempt pending between
operations, and `current_port` is non-null exactly when an engine thread
is alive. -/
def serviceInvariant (s : ServiceState) : Prop :=
  s.start_in_progress = false ∧ s.current_port.isSome = s.thread_alive

/-- The `_last_start_error` value after the candidate loop: the exception
message of the last failing spawn, threaded from an initial value. -/
def lseAfter (oracle : Nat → StartOutcome) (init : String) : List Nat → String
  | [] => init
  | c :: rest =>
    match oracle c with
    | StartOutcome.failWith e => lseAfter oracle e rest
    | _ => lseAfter oracle init rest

/-- Decompressors in which every decoder raises and brotli is missing:
used when the content is not encoded, so no decoder runs. -/
def noDecompress : Decompressors :=
  { gunzip := fun _ => none, inflate := fun _ => none,
    brAvailable := false, brotli := fun _ => none }

/-- Headers declaring a binary content-type (used in concrete checks). -/
def pdfHeaders : Option (List (String × String)) :=
  some [("Content-Type", "application/pdf")]

/-- Headers declaring gzip transport encoding (used in concrete checks). -/
def gzipHeaders : Option (List (String × String)) :=
  some [("Content-Encoding", "gzip")]

/-- A body one byte over the capture cap (used in concrete checks). -/
def overCapBody : List Nat := List.replicate (MAX_BODY_CAPTURE + 1) 65

/-- Decompressors whose gzip decoder returns the UTF-8 bytes of "hello"
(a stand-in for `gzip.decompress` on the gzip stream of that text,
used in concrete checks). -/
def helloGunzip : Decompressors :=
  { gunzip := fun _ => some [104, 101, 108, 108, 111], inflate := fun _ => none,
    brAvailable := false, brotli := fun _ => none }

/-- Decompressors whose gzip decoder returns the UTF-8 bytes of the
one-character control text "\x01" (a stand-in for `gzip.decompress` on the
gzip stream of that text, used in concrete checks). -/
def ctrlGunzip : Decompressors :=
  { gunzip := fun _ => some [1], inflate := fun _ => none,
    brAvailable := false, brotli := fun _ => none }

/-- A sample serialized operation sequence without the engine exit path
(used in concrete checks). -/
def sampleLifecycleOps : List Op :=
  [Op.start 3 (fun _ => StartOutcome.ok), Op.pause, Op.stop]

/-! ### Shared helper lemmas -/

/-- Nonempty data whose declared content-type matches the binary hint list
and not the textual hint list decodes to the placeholder carrying the
length of the data argument. -/
theorem decode_binary_ct_eq (dec : Decompressors) (data : List Nat)
    (headers : Option (List (String × String)))
    (hne : data.isEmpty = false) (hb : declaredBinary headers = true)
    (ht : declaredTextual headers = false) :
    decode_for_display dec data headers =
      binary_placeholder (contentTypeOf headers) data.length := by
  simp [decode_for_display, hne, hb, ht]

/-- The length of a truncated body is the minimum of the original length
and the cap. -/
theorem truncate_some_length (body : List Nat) :
    (truncate_bytes (some body)).length = min body.length MAX_BODY_CAPTURE := by
  simp only [truncate_bytes]
  split
  · exact (Nat.min_eq_left (by assumption)).symm
  · simp only [List.length_take]
    exact Nat.min_comm _ _

/-- If the claimed sample ratio exceeds 8 percent then the source's
heuristic fires. -/
theorem looksBinary_of_ratio (text : String)
    (h : (controlCount (text.data.take 2000) + replacementCount (text.data.take 2000)) * 25 >
      2 * (text.data.take 2000).length) :
    looks_binary_from_text text = true := by
  have hlen : 0 < (text.data.take 2000).length := by
    rcases Nat.eq_zero_or_pos (text.data.take 2000).length with h0 | h1
    · rw [List.length_eq_zero] at h0
      rw [h0] at h
      simp [controlCount, replacementCount] at h
    · exact h1
  have hne : (text == "") = false := by
    rcases eq_or_ne text "" with he | he
    · subst he
      simp at hlen
    · simp [he]
  have hmax : max 1 (text.data.take 2000).length = (text.data.take 2000).length :=
    Nat.max_eq_right hlen
  simp only [looks_binary_from_text, hne, Bool.false_eq_true, if_false, hmax]
  exact decide_eq_true h

/-! ### C1 -/

/-- C1 counterexample: a body one byte over the 100 KiB cap, declared
`application/pdf`, is truncated before decoding, and the placeholder
reports the truncated count 102400, not the original count 102401 — the
claimed "literal original byte count of the untruncated body" appears
nowhere in the result. -/
theorem c1_counterexample_overcap_body :
    overCapBody.length = 102401 ∧
    decode_for_display noDecompress (truncate_bytes (some overCapBody)) pdfHeaders =
      "[binary body omitted: application/pdf; 102400 bytes]" ∧
    strContains "[binary body omitted: application/pdf; 102400 bytes]" "102401" = false := by
  have hlen : overCapBody.length = 102401 := by
    rw [show overCapBody = List.replicate (MAX_BODY_CAPTURE + 1) 65 from rfl,
      List.length_replicate]
    decide
  have htl : (truncate_bytes (some overCapBody)).length = 102400 := by
    rw [truncate_some_length, hlen]
    decide
  have hne : (truncate_bytes (some overCapBody)).isEmpty = false := by
    cases htb : truncate_bytes (some overCapBody) with
    | nil => rw [htb] at htl; simp at htl
    | cons a l => rfl
  refine ⟨hlen, ?_, by decide⟩
  rw [decode_binary_ct_eq noDecompress _ pdfHeaders hne (by decide) (by decide), htl]
  decide

/-- C1 (amended): for every nonempty raw body whose declared content-type
matches the binary hint list and not the textual hint list, the
truncate-then-decode pipeline returns the placeholder containing the byte
count of the truncated body, `min (original length) (100 KiB)` — which is
the original byte count exactly when the body does not exceed the cap. -/
theorem c1_binary_placeholder_truncated_count (dec : Decompressors) (body : List Nat)
    (headers : Option (List (String × String)))
    (hb : declaredBinary headers = true) (ht : declaredTextual headers = false)
    (hne : body ≠ []) :
    decode_for_display dec (truncate_bytes (some body)) headers =
      binary_placeholder (contentTypeOf headers) (min body.length MAX_BODY_CAPTURE) := by
  have hpos : 0 < (truncate_bytes (some body)).length := by
    rw [truncate_some_length]
    exact lt_min_iff.mpr ⟨List.length_pos.mpr hne, by decide⟩
  have hne2 : (truncate_bytes (some body)).isEmpty = false := by
    cases htb : truncate_bytes (some body) with
    | nil => rw [htb] at hpos; simp at hpos
    | cons a l => rfl
  rw [decode_binary_ct_eq dec _ headers hne2 hb ht, truncate_some_length]

/-- C1 witness: a one-byte `application/pdf` body goes through the
pipeline to the placeholder with its (un-truncated) count. -/
theorem c1_witness_small_pdf_body :
    declaredBinary pdfHeaders = true ∧
    decode_for_display noDecompress (truncate_bytes (some [65])) pdfHeaders =
      binary_placeholder (contentTypeOf pdfHeaders) (min ([65] : List Nat).length MAX_BODY_CAPTURE) :=
  ⟨by decide,
   c1_binary_placeholder_truncated_count noDecompress [65] pdfHeaders
     (by decide) (by decide) (by decide)⟩

/-! ### C2 -/

/-- C2: the body bytes passed on for decoding are at most the fixed
100 KiB cap long, and the record's truncated flag is true exactly when the
original, untruncated body length exceeds the cap. -/
theorem c2_truncation_cap_and_flag :
    (∀ data : Option (List Nat), (truncate_bytes data).length ≤ MAX_BODY_CAPTURE) ∧
    (∀ body : List Nat, bodyTruncatedFlag body = true ↔ body.length > MAX_BODY_CAPTURE) := by
  constructor
  · intro data
    match data with
    | none => simp [truncate_bytes]
    | some d =>
      simp only [truncate_bytes]
      split
      · assumption
      · simp only [List.length_take]
        exact Nat.min_le_left _ _
  · intro body
    simp [bodyTruncatedFlag]

/-! ### C6 -/

/-- C6: the content-encoding undoing step of `_decode_for_display` is a
total function on all inputs (so it never raises): `gzip` in the encoding
selects gzip-inflate, else `deflate` selects zlib-inflate, else `br`
selects best-effort brotli when that decoder is importable, anything else
passes through; and whenever the selected decoder fails (models a raised
exception) or is missing, the bytes are returned unchanged. -/
theorem c6_content_encoding_dispatch (dec : Decompressors) (enc : String) (data : List Nat) :
    (strContains enc "gzip" = true →
      undoContentEncoding dec enc data = (dec.gunzip data).getD data) ∧
    (strContains enc "gzip" = false → strContains enc "deflate" = true →
      undoContentEncoding dec enc data = (dec.inflate data).getD data) ∧
    (strContains enc "gzip" = false → strContains enc "deflate" = false →
      strContains enc "br" = true →
      undoContentEncoding dec enc data =
        (if dec.brAvailable then (dec.brotli data).getD data else data)) ∧
    (strContains enc "gzip" = false → strContains enc "deflate" = false →
      strContains enc "br" = false → undoContentEncoding dec enc data = data) ∧
    (dec.gunzip data = none → dec.inflate data = none → dec.brotli data = none →
      undoContentEncoding dec enc data = data) := by
  refine ⟨?_, ?_, ?_, ?_, ?_⟩
  · intro h1
    simp [undoContentEncoding, h1]
  · intro h1 h2
    simp [undoContentEncoding, h1, h2]
  · intro h1 h2 h3
    simp [undoContentEncoding, h1, h2, h3]
  · intro h1 h2 h3
    simp [undoContentEncoding, h1, h2, h3]
  · intro hg hi hb
    simp only [undoContentEncoding, hg, hi, hb, Option.getD_none]
    split
    · rfl
    · split
      · rfl
      · split
        · split
          · rfl
          · rfl
        · rfl

/-- C6 witness: with every decoder failing (or missing), both a
gzip-encoded and an unrecognized encoding leave the bytes unchanged. -/
theorem c6_witness :
    strContains "gzip" "gzip" = true ∧
    undoContentEncoding noDecompress "gzip" [1, 2, 3] = [1, 2, 3] ∧
    undoContentEncoding noDecompress "identity" [1, 2, 3] = [1, 2, 3] :=
  ⟨by decide,
   (c6_content_encoding_dispatch noDecompress "gzip" [1, 2, 3]).2.2.2.2 rfl rfl rfl,
   (c6_content_encoding_dispatch noDecompress "identity" [1, 2, 3]).2.2.2.1
     (by decide) (by decide) (by decide)⟩

/-! ### C7 -/

/-- C7: whenever the first 2000 characters of the decoded text contain
control characters (code point below 32, excluding tab, newline and
carriage-return) plus Unicode replacement characters in a ratio over the
sample length strictly greater than 0.08 (embedded exactly as
`25 * count > 2 * length`), `_decode_for_display` classifies the body as
binary and returns the placeholder; the headers are arbitrary, so in
particular no content-type needs to be set. -/
theorem c7_control_ratio_forces_placeholder (dec : Decompressors) (data : List Nat)
    (headers : Option (List (String × String)))
    (hne : data.isEmpty = false)
    (h : (controlCount ((displayText dec data headers).data.take 2000) +
          replacementCount ((displayText dec data headers).data.take 2000)) * 25 >
         2 * ((displayText dec data headers).data.take 2000).length) :
    decode_for_display dec data headers =
      binary_placeholder (contentTypeOf headers) data.length := by
  have hb := looksBinary_of_ratio _ h
  simp [decode_for_display, hne, hb]

/-- C7 witness: the single byte 0x01 with no headers decodes to a
one-character control text, trips the heuristic, and is replaced by the
`binary/unknown` placeholder. -/
theorem c7_witness :
    ([1] : List Nat).isEmpty = false ∧
    decode_for_display noDecompress [1] none = binary_placeholder (contentTypeOf none) 1 :=
  ⟨by decide,
   c7_control_ratio_forces_placeholder noDecompress [1] none (by decide) (by decide)⟩

/-! ### C8 -/

/-- C8 counterexample: the one-character control text "\x01" is a UTF-8
text body; with a gzip decoder that returns exactly its UTF-8 bytes (as
`gzip.decompress` does on its gzip stream) and a `content-encoding: gzip`
header, `_decode_for_display` does not return the original text — the
binary heuristic fires on the decompressed text and yields the
placeholder instead. -/
theorem c8_counterexample_control_text :
    ctrlGunzip.gunzip [31, 139] = some [1] ∧
    safe_decode [1] = ("\x01", false) ∧
    decode_for_display ctrlGunzip [31, 139] gzipHeaders ≠ "\x01" := by
  exact ⟨rfl, by decide, by decide⟩

/-- C8 (amended): for every UTF-8 text body that does not itself trip the
binary heuristic, gzip-compressing it and passing the compressed bytes to
`_decode_for_display` with a content-encoding header containing "gzip"
(and no binary-hinted content-type) yields exactly the original text.
The gzip pair is quantified: any decompressor result that restores the
body's UTF-8 bytes, as `gzip.decompress ∘ gzip.compress` does. -/
theorem c8_gzip_roundtrip_nonbinary_text (dec : Decompressors) (data bytes : List Nat)
    (body : String) (headers : Option (List (String × String)))
    (hne : data.isEmpty = false)
    (henc : strContains (contentEncodingOf headers) "gzip" = true)
    (hct : declaredBinary headers = false)
    (hgz : dec.gunzip data = some bytes)
    (hdec : safe_decode bytes = (body, false))
    (hbin : looks_binary_from_text body = false) :
    decode_for_display dec data headers = body := by
  have hdb : decodedBytes dec data headers = bytes := by
    simp [decodedBytes, undoContentEncoding, henc, hgz]
  have htext : displayText dec data headers = body := by
    simp [displayText, hdb, hdec]
  have hiss : hadDecodeIssue dec data headers = false := by
    simp [hadDecodeIssue, hdb, hdec]
  simp [decode_for_display, hne, hct, hiss, htext, hbin]

/-- C8 witness: "hello" gzip-round-trips through the decode pipeline. -/
theorem c8_witness :
    safe_decode [104, 101, 108, 108, 111] = ("hello", false) ∧
    decode_for_display helloGunzip [31, 139, 8] gzipHeaders = "hello" :=
  ⟨by decide,
   c8_gzip_roundtrip_nonbinary_text helloGunzip [31, 139, 8] [104, 101, 108, 108, 111]
     "hello" gzipHeaders (by decide) (by decide) (by decide) rfl (by decide) (by decide)⟩

/-! ### C9 -/

/-- C9: header lookup is total at the decode interface: `_get_header_value`
returns the empty string on a `None` collection, on an empty collection,
and when no name matches case-insensitively; consequently
`_decode_for_display` treats `None` headers (as `FlowCollector` passes for
a flow without a response object) exactly like an empty header list. -/
theorem c9_header_lookup_total :
    (∀ name : String, get_header_value none name = "") ∧
    (∀ name : String, get_header_value (some []) name = "") ∧
    (∀ (hs : List (String × String)) (name : String),
      (∀ kv ∈ hs, lowerAscii kv.1 ≠ lowerAscii name) →
      get_header_value (some hs) name = "") ∧
    (∀ (dec : Decompressors) (data : List Nat),
      decode_for_display dec data none = decode_for_display dec data (some [])) := by
  refine ⟨fun _ => rfl, fun _ => rfl, ?_, ?_⟩
  · intro hs name h
    simp only [get_header_value]
    split
    · rfl
    · have hfind : hs.find? (fun kv => lowerAscii kv.1 == lowerAscii name) = none := by
        rw [List.find?_eq_none]
        intro kv hkv
        simp [h kv hkv]
      rw [hfind]
  · intro dec data
    rfl

/-- C9 witness: a `None` collection and a non-matching collection both
yield the empty string for `content-type`. -/
theorem c9_witness :
    get_header_value none "content-type" = "" ∧
    get_header_value (some [("X-Feature", "on")]) "content-type" = "" :=
  ⟨c9_header_lookup_total.1 "content-type",
   c9_header_lookup_total.2.2.1 [("X-Feature", "on")] "content-type" (by decide)⟩

/-! ### Lifecycle helper lemmas -/

/-- When no candidate succeeds, the candidate loop ends in the exhaustion
branch: the thread stays dead and `_last_start_error` holds the last
captured spawn exception. -/
theorem tryCandidates_no_ok (oracle : Nat → StartOutcome) (req : Nat)
    (cands : List Nat) :
    ∀ s : ServiceState, (∀ c ∈ cands, oracle c ≠ StartOutcome.ok) →
      s.thread_alive = false →
      tryCandidates oracle req s cands = failFinish req
        { s with
          thread_alive := false,
          last_start_error := lseAfter oracle s.last_start_error cands } := by
  induction cands with
  | nil =>
    intro s _ hA
    obtain ⟨ce, pa, ta, cp, sip, lse, ev⟩ := s
    cases ta
    · rfl
    · simp at hA
  | cons c rest ih =>
    intro s hno hA
    have hc : oracle c ≠ StartOutcome.ok := hno c (List.mem_cons_self c rest)
    have hrest : ∀ d ∈ rest, oracle d ≠ StartOutcome.ok :=
      fun d hd => hno d (List.mem_cons_of_mem c hd)
    cases h : oracle c with
    | inUse =>
      rw [show tryCandidates oracle req s (c :: rest) = tryCandidates oracle req s rest from by
          simp [tryCandidates, h],
        ih s hrest hA]
      simp [failFinish, lseAfter, h]
    | failWith e =>
      rw [show tryCandidates oracle req s (c :: rest) =
          tryCandidates oracle req
            { s with
              current_port := some c, thread_alive := false, last_start_error := e } rest from by
          simp [tryCandidates, h],
        ih _ hrest rfl]
      simp [failFinish, lseAfter, h]
    | timeout =>
      rw [show tryCandidates oracle req s (c :: rest) =
          tryCandidates oracle req
            { s with current_port := some c, thread_alive := false } rest from by
          simp [tryCandidates, h],
        ih _ hrest rfl]
      simp [failFinish, lseAfter, h]
    | ok => exact absurd h hc

/-- Exhaustion shape of `start` when the resume-in-place branch is not
taken and no candidate succeeds. -/
theorem startOp_no_ok (s : ServiceState) (P : Nat) (oracle : Nat → StartOutcome)
    (hnr : ¬(s.thread_alive = true ∧ s.current_port = some P))
    (hno : ∀ c ∈ candidate_ports P, oracle c ≠ StartOutcome.ok) :
    startOp s P oracle = failFinish P
      { s with
        capture_enabled := true,
        paused := false,
        thread_alive := false,
        start_in_progress := true,
        last_start_error := lseAfter oracle "" (candidate_ports P) } := by
  obtain ⟨ce, pa, ta, cp, sip, lse, ev⟩ := s
  simp only [startOp]
  rw [if_neg hnr]
  cases ta
  · exact tryCandidates_no_ok oracle P (candidate_ports P) _ hno rfl
  · exact tryCandidates_no_ok oracle P (candidate_ports P) _ hno rfl

/-- The candidate loop preserves the lifecycle invariant when entered with
a dead thread. -/
theorem tryCandidates_inv (oracle : Nat → StartOutcome) (req : Nat)
    (cands : List Nat) :
    ∀ s : ServiceState, s.thread_alive = false →
      serviceInvariant (tryCandidates oracle req s cands) := by
  induction cands with
  | nil =>
    intro s hA
    refine ⟨rfl, ?_⟩
    show (failFinish req s).current_port.isSome = (failFinish req s).thread_alive
    simp [failFinish, hA]
  | cons c rest ih =>
    intro s hA
    simp only [tryCandidates]
    cases h : oracle c
    · exact ih s hA
    · exact ih _ rfl
    · exact ih _ rfl
    · exact ⟨rfl, rfl⟩

/-- Every serialized `ProxyService` operation other than the engine
thread's own exit path preserves the lifecycle invariant. -/
theorem applyOp_preserves_inv (op : Op) (s : ServiceState)
    (hinv : serviceInvariant s) (hnx : op.isEngineExit = false) :
    serviceInvariant (applyOp op s) := by
  obtain ⟨hsip, hport⟩ := hinv
  cases op with
  | start port oracle =>
    simp only [applyOp, startOp]
    split
    · exact ⟨hsip, hport⟩
    · apply tryCandidates_inv
      by_cases hta : s.thread_alive = true
      · simp [hta, shutdown_proxy_locked]
      · simp [hta]
  | stop => exact ⟨hsip, rfl⟩
  | pause =>
    simp only [applyOp, pauseOp]
    split
    · exact ⟨hsip, hport⟩
    · exact ⟨hsip, hport⟩
  | resume =>
    simp only [applyOp, resumeOp]
    split
    · exact ⟨hsip, hport⟩
    · exact ⟨hsip, hport⟩
  | engineExit err => simp [Op.isEngineExit] at hnx

/-- Running a sequence of serialized operations without the engine exit
path preserves the lifecycle invariant. -/
theorem runOps_preserves_inv (ops : List Op) :
    ∀ s : ServiceState, serviceInvariant s → (∀ op ∈ ops, op.isEngineExit = false) →
      serviceInvariant (runOps ops s) := by
  induction ops with
  | nil => intro s h _; exact h
  | cons op rest ih =>
    intro s h hall
    exact ih (applyOp op s)
      (applyOp_preserves_inv op s h (hall op (List.mem_cons_self op rest)))
      (fun o ho => hall o (List.mem_cons_of_mem op ho))

/-! ### C3 -/

/-- C3 counterexample: after a successful `start(5)` the engine thread's
own exit path (`run_proxy`'s `finally`) clears the thread reference but
never clears `current_port`, leaving `current_port = 5` with no alive
engine thread and no start attempt in progress — exactly the state the
claimed invariant forbids. -/
theorem c3_counterexample_engine_exit :
    (runOps [Op.start 5 (fun _ => StartOutcome.ok), Op.engineExit (some "boom")]
      initialState).current_port = some 5 ∧
    (runOps [Op.start 5 (fun _ => StartOutcome.ok), Op.engineExit (some "boom")]
      initialState).thread_alive = false ∧
    (runOps [Op.start 5 (fun _ => StartOutcome.ok), Op.engineExit (some "boom")]
      initialState).start_in_progress = false := by
  decide

/-- C3 (amended): after any serialized sequence of `start`, `stop`,
`pause` and `resume` operations — excluding the engine thread's own exit
path, which violates the property by leaving `current_port` set — the
state never has `current_port` non-null with no alive engine thread and no
start attempt in progress, nor an alive engine thread with `current_port`
null; the model's single thread-liveness flag reflects that the serialized
`start` always shuts down the previous engine thread before spawning
another, so at most one engine thread exists at any time. -/
theorem c3_lifecycle_invariant_without_engine_exit (ops : List Op)
    (h : ∀ op ∈ ops, op.isEngineExit = false) :
    ((runOps ops initialState).current_port ≠ none →
      (runOps ops initialState).thread_alive = true ∨
      (runOps ops initialState).start_in_progress = true) ∧
    ((runOps ops initialState).thread_alive = true →
      (runOps ops initialState).current_port ≠ none) := by
  obtain ⟨hsip, hport⟩ := runOps_preserves_inv ops initialState ⟨rfl, rfl⟩ h
  constructor
  · intro hcp
    left
    rw [← hport]
    exact Option.ne_none_iff_isSome.mp hcp
  · intro hta
    apply Option.ne_none_iff_isSome.mpr
    rw [hport, hta]

/-- C3 witness: a concrete start/pause/stop run keeps the invariant. -/
theorem c3_witness :
    (∀ op ∈ sampleLifecycleOps, op.isEngineExit = false) ∧
    ((runOps sampleLifecycleOps initialState).thread_alive = true →
      (runOps sampleLifecycleOps initialState).current_port ≠ none) :=
  ⟨by decide, (c3_lifecycle_invariant_without_engine_exit sampleLifecycleOps (by decide)).2⟩

/-! ### C4 -/

/-- C4 counterexample: with the engine alive, a second consecutive
`pause()` changes no state (the flag is already set) yet still emits one
more `paused` status event, contradicting the claim that a call which does
not change state emits nothing. -/
theorem c4_counterexample_double_pause :
    (runOps [Op.start 6 (fun _ => StartOutcome.ok), Op.pause] initialState).paused = true ∧
    (runOps [Op.start 6 (fun _ => StartOutcome.ok), Op.pause, Op.pause] initialState).events =
      (runOps [Op.start 6 (fun _ => StartOutcome.ok), Op.pause] initialState).events ++
        [SidecarEvent.status "paused" "Paused" (some 6)] := by
  decide

/-- C4 (amended): `pause()` is idempotent in state — with an alive engine
thread it always leaves the paused flag set and emits exactly one `paused`
status event per call, whether or not the call changes state (so the
second of two consecutive calls emits a second event); with no alive
engine thread it changes nothing and emits no event at all. -/
theorem c4_pause_behavior (s : ServiceState) :
    (s.thread_alive = true →
      applyOp Op.pause s =
        { s with
          paused := true,
          events := s.events ++ [SidecarEvent.status "paused" "Paused" s.current_port] }) ∧
    (s.thread_alive = false → applyOp Op.pause s = s) := by
  constructor
  · intro h
    simp [applyOp, pauseOp, h]
  · intro h
    simp [applyOp, pauseOp, h]

/-- C4 witness: pausing with no engine is the identity and emits nothing;
pausing a freshly started engine sets the flag and emits one event. -/
theorem c4_witness :
    applyOp Op.pause initialState = initialState ∧
    applyOp Op.pause (runOps [Op.start 2 (fun _ => StartOutcome.ok)] initialState) =
      { runOps [Op.start 2 (fun _ => StartOutcome.ok)] initialState with
        paused := true,
        events := (runOps [Op.start 2 (fun _ => StartOutcome.ok)] initialState).events ++
          [SidecarEvent.status "paused" "Paused"
            (runOps [Op.start 2 (fun _ => StartOutcome.ok)] initialState).current_port] } :=
  ⟨(c4_pause_behavior initialState).2 rfl, (c4_pause_behavior _).1 rfl⟩

/-! ### C5 -/

/-- C5: when `start(P)` finds all 21 candidate ports (P through P+20)
occupied or unreachable (and is not the resume-in-place case), it clears
`current_port` and appends exactly two events: one stopped status whose
message names the originally requested port P, and one separate error
event that references P and carries the last captured engine exception
message if there was one, else the generic busy-or-blocked hint. -/
theorem c5_start_exhaustion_events (s : ServiceState) (P : Nat)
    (oracle : Nat → StartOutcome)
    (hnr : ¬(s.thread_alive = true ∧ s.current_port = some P))
    (hno : ∀ c ∈ candidate_ports P, oracle c ≠ StartOutcome.ok) :
    (startOp s P oracle).current_port = none ∧
    (startOp s P oracle).events = s.events ++
      [SidecarEvent.status "stopped"
        ("Failed to start proxy near 127.0.0.1:" ++ toString P) (some P),
       SidecarEvent.error
        ("Proxy failed to start near 127.0.0.1:" ++ toString P ++ ". " ++
          (if lseAfter oracle "" (candidate_ports P) == "" then "Port may be busy or blocked."
           else lseAfter oracle "" (candidate_ports P)))] := by
  rw [startOp_no_ok s P oracle hnr hno]
  exact ⟨rfl, rfl⟩

/-- C5 witness: all 21 candidates near 9000 occupied, no engine exception
captured: the stopped status names 9000 and the error carries the generic
hint. -/
theorem c5_witness :
    (startOp initialState 9000 (fun _ => StartOutcome.inUse)).current_port = none ∧
    (startOp initialState 9000 (fun _ => StartOutcome.inUse)).events =
      [SidecarEvent.status "stopped" "Failed to start proxy near 127.0.0.1:9000" (some 9000),
       SidecarEvent.error
         "Proxy failed to start near 127.0.0.1:9000. Port may be busy or blocked."] := by
  have h := c5_start_exhaustion_events initialState 9000 (fun _ => StartOutcome.inUse)
    (by decide) (by decide)
  exact ⟨h.1, by rw [h.2]; decide⟩

/-! ### C10 -/

/-- C10: after `start` fails on all 21 candidates, the CaptureState flags
set at the beginning of the attempt are left in place (`capture_enabled`
set, `paused` cleared), `current_port` is reset to `None`, no engine
thread is alive, and the derived status reports stopped — solely because
no engine thread is alive, since `capture_enabled` is still set. -/
theorem c10_start_failure_frame (s : ServiceState) (P : Nat)
    (oracle : Nat → StartOutcome)
    (hnr : ¬(s.thread_alive = true ∧ s.current_port = some P))
    (hno : ∀ c ∈ candidate_ports P, oracle c ≠ StartOutcome.ok) :
    (startOp s P oracle).capture_enabled = true ∧
    (startOp s P oracle).paused = false ∧
    (startOp s P oracle).current_port = none ∧
    (startOp s P oracle).thread_alive = false ∧
    current_status_payload (startOp s P oracle) =
      SidecarEvent.status "stopped" "Ready" none := by
  rw [startOp_no_ok s P oracle hnr hno]
  exact ⟨rfl, rfl, rfl, rfl, rfl⟩

/-- C10 witness: every candidate near 7000 fails with a bind error; the
flags survive, the port is cleared and the derived status is stopped. -/
theorem c10_witness :
    (startOp initialState 7000 (fun _ => StartOutcome.failWith "bind error")).capture_enabled
      = true ∧
    current_status_payload
      (startOp initialState 7000 (fun _ => StartOutcome.failWith "bind error")) =
      SidecarEvent.status "stopped" "Ready" none := by
  have h := c10_start_failure_frame initialState 7000
    (fun _ => StartOutcome.failWith "bind error") (by decide) (by decide)
  exact ⟨h.1, h.2.2.2.2⟩
